import Mathlib

/-
Verification of the parking_lot reader-writer lock (`src/rwlock.rs`).

The file `rwlock.rs` is the scoped wrapper over a raw lock `RawRwLock`
(declared in `raw_rwlock.rs`, which is not among the sources).  The wrapper
is translated directly; the raw lock's state word and its operations are
modelled from the specification (spec sections 3, 4.1, 4.3, 4.5), as noted
in the doc comment of every such definition.

The model is quiescent: every operation is summarised by its effect on the
state word between atomic operations, with an empty parking queue (so wake
paths find no waiter and clear the corresponding parked bit, and a timed
wait whose fast-path predicate fails times out with no net effect).
Reader counts are kept as unbounded naturals; overflow of SHARED_COUNT is
a spec non-goal and is out of scope.
-/

namespace ParkingLot

/-- Modelled from the spec: the raw lock's state word (spec section 3);
`raw_rwlock.rs` is not among the sources.  Bit fields, least significant
first: PARKED_BIT, UPGRADABLE_PARKED_BIT, WRITER_BIT, UPGRADABLE_BIT, and
SHARED_COUNT in the remaining bits (ONE_READER = 1 <<< 4). -/
structure RawState where
  parked : Bool
  upgradableParked : Bool
  writer : Bool
  upgradable : Bool
  sharedCount : Nat
deriving DecidableEq, Repr

/-- The freshly constructed raw lock: state word 0. -/
def RawState.init : RawState := ⟨false, false, false, false, 0⟩

/-- The numeric value of the state word under the spec section 3 bit
layout. -/
def RawState.word (s : RawState) : Nat :=
  (cond s.parked 1 0) + (cond s.upgradableParked 2 0) + (cond s.writer 4 0) +
    (cond s.upgradable 8 0) + 16 * s.sharedCount

/-- Modelled from the spec: the shared-acquire fast-path predicate
(spec section 4.1): WRITER_BIT clear and, in non-recursive mode only,
PARKED_BIT clear.  In recursive mode PARKED_BIT is ignored. -/
def RawState.sharedGuardOk (s : RawState) (recursive : Bool) : Bool :=
  !s.writer && (recursive || !s.parked)

/-- Modelled from the spec: `RawRwLock::try_lock_shared` (spec section
4.1): same predicates as the blocking fast path, returns false on failure
and never blocks; on failure the compare-exchange leaves the word
unchanged. -/
def try_lock_shared (recursive : Bool) (s : RawState) : Bool × RawState :=
  if s.sharedGuardOk recursive then
    (true, { s with sharedCount := s.sharedCount + 1 })
  else
    (false, s)

/-- Modelled from the spec: the blocking shared acquire
`RawRwLock::lock_shared` (spec sections 4.1 and 4.2).  The caller is
admitted immediately iff the fast-path predicate holds; otherwise it
parks on the shared/exclusive key, which the quiescent model renders as
`none` (no immediate acquisition). -/
def lock_shared (recursive : Bool) (s : RawState) : Option RawState :=
  if s.sharedGuardOk recursive then
    some { s with sharedCount := s.sharedCount + 1 }
  else
    none

/-- Modelled from the spec: `RawRwLock::try_lock_shared_for` (spec section
4.5).  In the quiescent model the word does not change while the caller
waits, so the wait succeeds before any deadline iff the fast-path
predicate holds now; on timeout the waiter removes itself from the queue
and restores the word, so the failure has no net effect and the holder is
never granted. -/
def try_lock_shared_for (recursive : Bool) (_timeout : Nat) (s : RawState) :
    Bool × RawState :=
  try_lock_shared recursive s

/-- Modelled from the spec: `RawRwLock::try_lock_shared_until` (spec
section 4.5), deadline form of `try_lock_shared_for`. -/
def try_lock_shared_until (recursive : Bool) (_deadline : Nat) (s : RawState) :
    Bool × RawState :=
  try_lock_shared recursive s

/-- Modelled from the spec: `RawRwLock::try_lock_exclusive` (spec section
4.1): succeed iff the state word is 0; set WRITER_BIT. -/
def try_lock_exclusive (s : RawState) : Bool × RawState :=
  if s = RawState.init then
    (true, { s with writer := true })
  else
    (false, s)

/-- Modelled from the spec: `RawRwLock::try_lock_exclusive_for` (spec
section 4.5), quiescent summary as for `try_lock_shared_for`. -/
def try_lock_exclusive_for (_timeout : Nat) (s : RawState) : Bool × RawState :=
  try_lock_exclusive s

/-- Modelled from the spec: `RawRwLock::try_lock_exclusive_until` (spec
section 4.5). -/
def try_lock_exclusive_until (_deadline : Nat) (s : RawState) : Bool × RawState :=
  try_lock_exclusive s

/-- Modelled from the spec: `RawRwLock::try_lock_upgradable` (spec section
4.1): succeed iff WRITER_BIT, UPGRADABLE_BIT and UPGRADABLE_PARKED_BIT are
all clear; set UPGRADABLE_BIT and add ONE_READER (the upgradable holder
counts as one shared holder). -/
def try_lock_upgradable (s : RawState) : Bool × RawState :=
  if !s.writer && !s.upgradable && !s.upgradableParked then
    (true, { s with upgradable := true, sharedCount := s.sharedCount + 1 })
  else
    (false, s)

/-- Modelled from the spec: `RawRwLock::try_lock_upgradable_for` (spec
section 4.5). -/
def try_lock_upgradable_for (_timeout : Nat) (s : RawState) : Bool × RawState :=
  try_lock_upgradable s

/-- Modelled from the spec: `RawRwLock::try_lock_upgradable_until` (spec
section 4.5). -/
def try_lock_upgradable_until (_deadline : Nat) (s : RawState) :
    Bool × RawState :=
  try_lock_upgradable s

/-- Modelled from the spec: `RawRwLock::unlock_shared` (spec section 4.1):
subtract ONE_READER; if SHARED_COUNT drops to 0 with PARKED_BIT set, enter
the exclusive-wake path, which in the quiescent model finds an empty
queue and clears PARKED_BIT.  The fair flag selects direct handoff when a
waiter exists, which the quiescent model has none of. -/
def unlock_shared (_fair : Bool) (s : RawState) : RawState :=
  let c := s.sharedCount - 1
  if c = 0 && s.parked then
    { s with sharedCount := c, parked := false }
  else
    { s with sharedCount := c }

/-- Modelled from the spec: `RawRwLock::unlock_exclusive` (spec section
4.1): clear WRITER_BIT; wake paths for PARKED_BIT and
UPGRADABLE_PARKED_BIT find an empty queue in the quiescent model and
clear those bits. -/
def unlock_exclusive (_fair : Bool) (s : RawState) : RawState :=
  { s with writer := false, parked := false, upgradableParked := false }

/-- Modelled from the spec: `RawRwLock::unlock_upgradable` (spec section
4.1): clear UPGRADABLE_BIT and subtract ONE_READER; if SHARED_COUNT
reaches 0 with PARKED_BIT set, the exclusive-key wake path runs, and the
upgradable-key wake path runs when UPGRADABLE_PARKED_BIT is set; both
find an empty queue in the quiescent model and clear their bit. -/
def unlock_upgradable (_fair : Bool) (s : RawState) : RawState :=
  let c := s.sharedCount - 1
  let p := if c = 0 then false else s.parked
  { s with upgradable := false, sharedCount := c, parked := p,
           upgradableParked := false }

/-- Modelled from the spec: `RawRwLock::exclusive_to_shared` (spec section
4.3): compare-exchange the word from WRITER_BIT to ONE_READER, preserving
PARKED and UPGRADABLE_PARKED bits; a wake pass for readers stops at the
first waiting writer, leaving the bits as they are in the quiescent
model. -/
def exclusive_to_shared (s : RawState) : RawState :=
  { s with writer := false, sharedCount := s.sharedCount + 1 }

/-- Modelled from the spec: `RawRwLock::try_upgradable_to_exclusive` (spec
section 4.3): succeeds only if the fast-path compare-exchange from
`UPGRADABLE_BIT ||| ONE_READER` to `WRITER_BIT` succeeds immediately; on
failure the word is unchanged. -/
def try_upgradable_to_exclusive (s : RawState) : Bool × RawState :=
  if s = ⟨false, false, false, true, 1⟩ then
    (true, ⟨false, false, true, false, 0⟩)
  else
    (false, s)

/-- Modelled from the spec: `RawRwLock::try_upgradable_to_exclusive_for`
(spec section 4.5), quiescent summary. -/
def try_upgradable_to_exclusive_for (_timeout : Nat) (s : RawState) :
    Bool × RawState :=
  try_upgradable_to_exclusive s

/-- Modelled from the spec: `RawRwLock::try_upgradable_to_exclusive_until`
(spec section 4.5). -/
def try_upgradable_to_exclusive_until (_deadline : Nat) (s : RawState) :
    Bool × RawState :=
  try_upgradable_to_exclusive s

/-- A call into the raw lock API, recorded so that theorems can state
which raw operations a wrapper method performs. -/
inductive RawOp
  | lockShared (recursive : Bool)
  | tryLockShared (recursive : Bool)
  | unlockShared (fair : Bool)
  | lockExclusive
  | tryLockExclusive
  | unlockExclusive (fair : Bool)
  | lockUpgradable
  | tryLockUpgradable
  | unlockUpgradable (fair : Bool)
  | exclusiveToShared
  | upgradableToShared
  | upgradableToExclusive
  | tryUpgradableToExclusive
deriving DecidableEq, Repr

/-- Whether a raw call releases a held lock. -/
def RawOp.isRelease : RawOp → Bool
  | .unlockShared _ => true
  | .unlockExclusive _ => true
  | .unlockUpgradable _ => true
  | _ => false

/-- Whether a raw call acquires the lock. -/
def RawOp.isAcquire : RawOp → Bool
  | .lockShared _ => true
  | .tryLockShared _ => true
  | .lockExclusive => true
  | .tryLockExclusive => true
  | .lockUpgradable => true
  | .tryLockUpgradable => true
  | _ => false

/-- From src/rwlock.rs: `RwLock<T>` holds the raw lock and an
`UnsafeCell<T>`.  `R` stands for the reference identity of `self.raw`
(which every guard of this lock stores), `state` for the contents of the
raw state word, and `data` for the protected payload, whose cell pointer
the quiescent model renders by its value. -/
structure RwLock (R T : Type) where
  rawRef : R
  state : RawState
  data : T
deriving DecidableEq, Repr

/-- From src/rwlock.rs: `RwLock::new` constructs an unlocked lock around
`val`; `r` is the reference identity the embedding assigns to
`self.raw`. -/
def RwLock.new (r : R) (val : T) : RwLock R T :=
  { rawRef := r, state := RawState.init, data := val }

/-- From src/rwlock.rs: `RwLockReadGuard` carries `raw: &RawRwLock` and
`data: *const T`. -/
structure RwLockReadGuard (R T : Type) where
  raw : R
  data : T
deriving DecidableEq, Repr

/-- From src/rwlock.rs: `RwLockWriteGuard` carries `raw: &RawRwLock` and
`data: *mut T`. -/
structure RwLockWriteGuard (R T : Type) where
  raw : R
  data : T
deriving DecidableEq, Repr

/-- From src/rwlock.rs: `RwLockUpgradableReadGuard` carries
`raw: &RawRwLock` and `data: *mut T`. -/
structure RwLockUpgradableReadGuard (R T : Type) where
  raw : R
  data : T
deriving DecidableEq, Repr

/-- From src/rwlock.rs: `RwLock::read_guard`. -/
def RwLock.read_guard (l : RwLock R T) : RwLockReadGuard R T :=
  { raw := l.rawRef, data := l.data }

/-- From src/rwlock.rs: `RwLock::write_guard`. -/
def RwLock.write_guard (l : RwLock R T) : RwLockWriteGuard R T :=
  { raw := l.rawRef, data := l.data }

/-- From src/rwlock.rs: `RwLock::upgradable_guard`. -/
def RwLock.upgradable_guard (l : RwLock R T) : RwLockUpgradableReadGuard R T :=
  { raw := l.rawRef, data := l.data }

/-- From src/rwlock.rs: `RwLock::read` calls
`self.raw.lock_shared(false)` and returns `self.read_guard()`; blocking
(no immediate acquisition) is rendered as `none`. -/
def RwLock.read (l : RwLock R T) :
    Option (RwLockReadGuard R T × RwLock R T) :=
  match lock_shared false l.state with
  | some s => some (l.read_guard, { l with state := s })
  | none => none

/-- From src/rwlock.rs: `RwLock::try_read` calls
`self.raw.try_lock_shared(false)`. -/
def RwLock.try_read (l : RwLock R T) :
    Option (RwLockReadGuard R T) × RwLock R T :=
  match try_lock_shared false l.state with
  | (true, s) => (some l.read_guard, { l with state := s })
  | (false, s) => (none, { l with state := s })

/-- From src/rwlock.rs: `RwLock::try_read_for`. -/
def RwLock.try_read_for (l : RwLock R T) (timeout : Nat) :
    Option (RwLockReadGuard R T) × RwLock R T :=
  match try_lock_shared_for false timeout l.state with
  | (true, s) => (some l.read_guard, { l with state := s })
  | (false, s) => (none, { l with state := s })

/-- From src/rwlock.rs: `RwLock::try_read_until`. -/
def RwLock.try_read_until (l : RwLock R T) (deadline : Nat) :
    Option (RwLockReadGuard R T) × RwLock R T :=
  match try_lock_shared_until false deadline l.state with
  | (true, s) => (some l.read_guard, { l with state := s })
  | (false, s) => (none, { l with state := s })

/-- From src/rwlock.rs: `RwLock::read_recursive` calls
`self.raw.lock_shared(true)`. -/
def RwLock.read_recursive (l : RwLock R T) :
    Option (RwLockReadGuard R T × RwLock R T) :=
  match lock_shared true l.state with
  | some s => some (l.read_guard, { l with state := s })
  | none => none

/-- From src/rwlock.rs: `RwLock::try_read_recursive` calls
`self.raw.try_lock_shared(true)`. -/
def RwLock.try_read_recursive (l : RwLock R T) :
    Option (RwLockReadGuard R T) × RwLock R T :=
  match try_lock_shared true l.state with
  | (true, s) => (some l.read_guard, { l with state := s })
  | (false, s) => (none, { l with state := s })

/-- From src/rwlock.rs: `RwLock::try_read_recursive_for`. -/
def RwLock.try_read_recursive_for (l : RwLock R T) (timeout : Nat) :
    Option (RwLockReadGuard R T) × RwLock R T :=
  match try_lock_shared_for true timeout l.state with
  | (true, s) => (some l.read_guard, { l with state := s })
  | (false, s) => (none, { l with state := s })

/-- From src/rwlock.rs: `RwLock::try_read_recursive_until`. -/
def RwLock.try_read_recursive_until (l : RwLock R T) (deadline : Nat) :
    Option (RwLockReadGuard R T) × RwLock R T :=
  match try_lock_shared_until true deadline l.state with
  | (true, s) => (some l.read_guard, { l with state := s })
  | (false, s) => (none, { l with state := s })

/-- From src/rwlock.rs: `RwLock::try_write` calls
`self.raw.try_lock_exclusive()`. -/
def RwLock.try_write (l : RwLock R T) :
    Option (RwLockWriteGuard R T) × RwLock R T :=
  match try_lock_exclusive l.state with
  | (true, s) => (some l.write_guard, { l with state := s })
  | (false, s) => (none, { l with state := s })

/-- From src/rwlock.rs: `RwLock::try_write_for`. -/
def RwLock.try_write_for (l : RwLock R T) (timeout : Nat) :
    Option (RwLockWriteGuard R T) × RwLock R T :=
  match try_lock_exclusive_for timeout l.state with
  | (true, s) => (some l.write_guard, { l with state := s })
  | (false, s) => (none, { l with state := s })

/-- From src/rwlock.rs: `RwLock::try_write_until`. -/
def RwLock.try_write_until (l : RwLock R T) (deadline : Nat) :
    Option (RwLockWriteGuard R T) × RwLock R T :=
  match try_lock_exclusive_until deadline l.state with
  | (true, s) => (some l.write_guard, { l with state := s })
  | (false, s) => (none, { l with state := s })

/-- From src/rwlock.rs: `RwLock::try_upgradable_read` calls
`self.raw.try_lock_upgradable()`. -/
def RwLock.try_upgradable_read (l : RwLock R T) :
    Option (RwLockUpgradableReadGuard R T) × RwLock R T :=
  match try_lock_upgradable l.state with
  | (true, s) => (some l.upgradable_guard, { l with state := s })
  | (false, s) => (none, { l with state := s })

/-- From src/rwlock.rs: `RwLock::try_upgradable_read_for`. -/
def RwLock.try_upgradable_read_for (l : RwLock R T) (timeout : Nat) :
    Option (RwLockUpgradableReadGuard R T) × RwLock R T :=
  match try_lock_upgradable_for timeout l.state with
  | (true, s) => (some l.upgradable_guard, { l with state := s })
  | (false, s) => (none, { l with state := s })

/-- From src/rwlock.rs: `RwLock::try_upgradable_read_until`. -/
def RwLock.try_upgradable_read_until (l : RwLock R T) (deadline : Nat) :
    Option (RwLockUpgradableReadGuard R T) × RwLock R T :=
  match try_lock_upgradable_until deadline l.state with
  | (true, s) => (some l.upgradable_guard, { l with state := s })
  | (false, s) => (none, { l with state := s })

/-- From src/rwlock.rs: `RwLock::into_inner` consumes the lock and returns
`self.data.into_inner()`; it makes no raw-lock call, recorded by the
empty trace. -/
def RwLock.into_inner (l : RwLock R T) : T × List RawOp :=
  (l.data, [])

/-- From src/rwlock.rs: `RwLock::get_mut` returns a mutable reference to
the payload through the cell pointer; it makes no raw-lock call. -/
def RwLock.get_mut (l : RwLock R T) : T × List RawOp :=
  (l.data, [])

/-- From src/rwlock.rs: `Drop for RwLockReadGuard` calls
`self.raw.unlock_shared(false)`.  The result is the new state word and
the raw calls made. -/
def RwLockReadGuard.drop (_g : RwLockReadGuard R T) (s : RawState) :
    RawState × List RawOp :=
  (unlock_shared false s, [RawOp.unlockShared false])

/-- From src/rwlock.rs: `RwLockReadGuard::unlock_fair` calls
`self.raw.unlock_shared(true)` and then `mem::forget(self)`, so the drop
release never runs: the trace is the single fair unlock. -/
def RwLockReadGuard.unlock_fair (_g : RwLockReadGuard R T) (s : RawState) :
    RawState × List RawOp :=
  (unlock_shared true s, [RawOp.unlockShared true])

/-- The two ways a read guard's scope can end: `unlock_fair` when `fair`,
otherwise the `Drop` impl (which also runs on panic or unwind). -/
def RwLockReadGuard.scopeExit (g : RwLockReadGuard R T) (fair : Bool)
    (s : RawState) : RawState × List RawOp :=
  if fair then g.unlock_fair s else g.drop s

/-- From src/rwlock.rs: `RwLockReadGuard::map` reads `orig.raw`, applies
`f` to the data pointer, forgets `orig` and builds a new guard; it makes
no raw-lock call and leaves the state word untouched. -/
def RwLockReadGuard.map (orig : RwLockReadGuard R T) (f : T → U)
    (s : RawState) : RwLockReadGuard R U × RawState × List RawOp :=
  ({ raw := orig.raw, data := f orig.data }, s, [])

/-- From src/rwlock.rs: `Drop for RwLockWriteGuard` calls
`self.raw.unlock_exclusive(false)`. -/
def RwLockWriteGuard.drop (_g : RwLockWriteGuard R T) (s : RawState) :
    RawState × List RawOp :=
  (unlock_exclusive false s, [RawOp.unlockExclusive false])

/-- From src/rwlock.rs: `RwLockWriteGuard::unlock_fair` calls
`self.raw.unlock_exclusive(true)` and then `mem::forget(self)`. -/
def RwLockWriteGuard.unlock_fair (_g : RwLockWriteGuard R T) (s : RawState) :
    RawState × List RawOp :=
  (unlock_exclusive true s, [RawOp.unlockExclusive true])

/-- The two exit paths of a write guard's scope. -/
def RwLockWriteGuard.scopeExit (g : RwLockWriteGuard R T) (fair : Bool)
    (s : RawState) : RawState × List RawOp :=
  if fair then g.unlock_fair s else g.drop s

/-- From src/rwlock.rs: `RwLockWriteGuard::downgrade` calls
`self.raw.exclusive_to_shared()`, forgets `self` (so the drop release
does not additionally run) and returns a read guard over the same raw
lock and the same data pointer. -/
def RwLockWriteGuard.downgrade (g : RwLockWriteGuard R T) (s : RawState) :
    RwLockReadGuard R T × RawState × List RawOp :=
  ({ raw := g.raw, data := g.data }, exclusive_to_shared s,
    [RawOp.exclusiveToShared])

/-- From src/rwlock.rs: `RwLockWriteGuard::map`, analogous to the read
version: no raw-lock call, state word untouched. -/
def RwLockWriteGuard.map (orig : RwLockWriteGuard R T) (f : T → U)
    (s : RawState) : RwLockWriteGuard R U × RawState × List RawOp :=
  ({ raw := orig.raw, data := f orig.data }, s, [])

/-- From src/rwlock.rs: `Drop for RwLockUpgradableReadGuard` calls
`self.raw.unlock_upgradable(false)`. -/
def RwLockUpgradableReadGuard.drop (_g : RwLockUpgradableReadGuard R T)
    (s : RawState) : RawState × List RawOp :=
  (unlock_upgradable false s, [RawOp.unlockUpgradable false])

/-- From src/rwlock.rs: `RwLockUpgradableReadGuard::unlock_fair` calls
`self.raw.unlock_upgradable(true)` and then `mem::forget(self)`. -/
def RwLockUpgradableReadGuard.unlock_fair (_g : RwLockUpgradableReadGuard R T)
    (s : RawState) : RawState × List RawOp :=
  (unlock_upgradable true s, [RawOp.unlockUpgradable true])

/-- The two exit paths of an upgradable read guard's scope. -/
def RwLockUpgradableReadGuard.scopeExit (g : RwLockUpgradableReadGuard R T)
    (fair : Bool) (s : RawState) : RawState × List RawOp :=
  if fair then g.unlock_fair s else g.drop s

/-- From src/rwlock.rs: `RwLockUpgradableReadGuard::try_upgrade` calls
`self.raw.try_upgradable_to_exclusive()`; on success it forgets `self`
and returns `Ok` of a write guard with the same raw reference and data
pointer, on failure it returns `Err(self)` with the word unchanged.
`Sum.inl` renders `Ok`, `Sum.inr` renders `Err`. -/
def RwLockUpgradableReadGuard.try_upgrade (g : RwLockUpgradableReadGuard R T)
    (s : RawState) :
    (RwLockWriteGuard R T ⊕ RwLockUpgradableReadGuard R T) × RawState :=
  match try_upgradable_to_exclusive s with
  | (true, s2) => (Sum.inl { raw := g.raw, data := g.data }, s2)
  | (false, s2) => (Sum.inr g, s2)

/-- Ghost record of the live guards of one lock: how many plain read
guards, whether a write guard exists, whether an upgradable read guard
exists.  The spec calls these holder records (spec section 3). -/
structure Holders where
  readers : Nat
  writerH : Bool
  upgradableH : Bool
deriving DecidableEq, Repr

/-- No guard exists. -/
def Holders.init : Holders := ⟨0, false, false⟩

/-- A lock state paired with its ghost holder record. -/
structure Config where
  s : RawState
  h : Holders
deriving DecidableEq, Repr

/-- Modelled from the spec: one observable transition of the lock between
quiescent states (spec sections 4.1 to 4.3).  Acquire transitions carry
the weakest admission condition the protocol ever allows (fast path or
wake-path grant), so the relation over-approximates every interleaving of
the public operations; release transitions require the matching guard to
exist, as the scoped API enforces; parked bits may change at any moment
as waiters enqueue or unpark paths run. -/
inductive Step : Config → Config → Prop
  | readAcquire (c : Config) (recursive : Bool)
      (hw : c.s.writer = false) :
      Step c ⟨{ c.s with sharedCount := c.s.sharedCount + 1 },
              { c.h with readers := c.h.readers + 1 }⟩
  | writeAcquire (c : Config)
      (hw : c.s.writer = false) (hu : c.s.upgradable = false)
      (hc : c.s.sharedCount = 0) :
      Step c ⟨{ c.s with writer := true },
              { c.h with writerH := true }⟩
  | upgradableAcquire (c : Config)
      (hw : c.s.writer = false) (hu : c.s.upgradable = false) :
      Step c ⟨{ c.s with upgradable := true,
                         sharedCount := c.s.sharedCount + 1 },
              { c.h with upgradableH := true }⟩
  | readRelease (c : Config) (hr : 1 ≤ c.h.readers) :
      Step c ⟨{ c.s with sharedCount := c.s.sharedCount - 1 },
              { c.h with readers := c.h.readers - 1 }⟩
  | writeRelease (c : Config) (hw : c.h.writerH = true) :
      Step c ⟨{ c.s with writer := false },
              { c.h with writerH := false }⟩
  | upgradableRelease (c : Config) (hu : c.h.upgradableH = true) :
      Step c ⟨{ c.s with upgradable := false,
                         sharedCount := c.s.sharedCount - 1 },
              { c.h with upgradableH := false }⟩
  | downgradeWrite (c : Config) (hw : c.h.writerH = true) :
      Step c ⟨{ c.s with writer := false,
                         sharedCount := c.s.sharedCount + 1 },
              { c.h with writerH := false,
                         readers := c.h.readers + 1 }⟩
  | downgradeUpgradable (c : Config) (hu : c.h.upgradableH = true) :
      Step c ⟨{ c.s with upgradable := false },
              { c.h with upgradableH := false,
                         readers := c.h.readers + 1 }⟩
  | upgrade (c : Config) (hu : c.h.upgradableH = true)
      (hc : c.s.sharedCount = 1) :
      Step c ⟨{ c.s with writer := true, upgradable := false,
                         sharedCount := 0 },
              { c.h with upgradableH := false, writerH := true }⟩
  | parkSet (c : Config) :
      Step c ⟨{ c.s with parked := true }, c.h⟩
  | parkClear (c : Config) :
      Step c ⟨{ c.s with parked := false }, c.h⟩
  | upgParkSet (c : Config) :
      Step c ⟨{ c.s with upgradableParked := true }, c.h⟩
  | upgParkClear (c : Config) :
      Step c ⟨{ c.s with upgradableParked := false }, c.h⟩

/-- The configurations reachable from the freshly constructed lock by any
sequence of public operations. -/
inductive Reachable : Config → Prop
  | init : Reachable ⟨RawState.init, Holders.init⟩
  | step {c c2 : Config} : Reachable c → Step c c2 → Reachable c2

/-- The inductive invariant tying the state word to the ghost holders:
the holder bits agree with the word, SHARED_COUNT counts the plain
readers plus one for the upgradable holder, and the writer excludes all
readers and the upgradable holder. -/
abbrev Inv (c : Config) : Prop :=
  c.s.writer = c.h.writerH ∧
  c.s.upgradable = c.h.upgradableH ∧
  c.s.sharedCount = c.h.readers + (cond c.h.upgradableH 1 0) ∧
  (c.s.writer = true → c.s.sharedCount = 0) ∧
  (c.s.writer = true → c.s.upgradable = false)

theorem inv_init : Inv ⟨RawState.init, Holders.init⟩ := by
  decide

theorem inv_step {c c2 : Config} (hI : Inv c) (hS : Step c c2) : Inv c2 := by
  obtain ⟨h1, h2, h3, h4, h5⟩ := hI
  cases hS <;>
    (simp only [Inv] at *
     cases hwH : c.h.writerH <;> cases huH : c.h.upgradableH <;>
       simp_all <;> omega)

theorem reachable_inv {c : Config} (hR : Reachable c) : Inv c := by
  induction hR with
  | init => exact inv_init
  | step _ hS ih => exact inv_step ih hS

theorem try_lock_shared_fail {r : Bool} {s s2 : RawState}
    (h : try_lock_shared r s = (false, s2)) : s2 = s := by
  unfold try_lock_shared at h
  split at h <;> simp_all

theorem try_lock_exclusive_fail {s s2 : RawState}
    (h : try_lock_exclusive s = (false, s2)) : s2 = s := by
  unfold try_lock_exclusive at h
  split at h <;> simp_all

theorem try_lock_upgradable_fail {s s2 : RawState}
    (h : try_lock_upgradable s = (false, s2)) : s2 = s := by
  unfold try_lock_upgradable at h
  split at h <;> simp_all

/-- C1: Mutual exclusion: in every configuration reachable by any
sequence of the public operations, the writer bit is never set while the
shared-reader count is positive; equivalently, while a write guard
exists, no plain read guard and no upgradable read guard exists. -/
theorem mutual_exclusion (c : Config) (hR : Reachable c) :
    ¬(c.s.writer = true ∧ 0 < c.s.sharedCount) ∧
    (c.h.writerH = true → c.h.readers = 0 ∧ c.h.upgradableH = false) := by
  obtain ⟨h1, h2, h3, h4, h5⟩ := reachable_inv hR
  constructor
  · rintro ⟨hw, hc⟩
    have h0 := h4 hw
    omega
  · intro hw
    have hsw : c.s.writer = true := h1.trans hw
    have hc := h4 hsw
    have hu := h5 hsw
    have huH : c.h.upgradableH = false := h2.symm.trans hu
    simp [huH] at h3
    exact ⟨by omega, huH⟩

/-- Witness for C1 at the configuration reached by one exclusive
acquisition from the initial lock. -/
theorem mutual_exclusion_witness :
    ¬((⟨⟨false, false, true, false, 0⟩, ⟨0, true, false⟩⟩ : Config).s.writer = true ∧
        0 < (⟨⟨false, false, true, false, 0⟩, ⟨0, true, false⟩⟩ : Config).s.sharedCount) :=
  (mutual_exclusion _ (Reachable.step Reachable.init
      (Step.writeAcquire ⟨RawState.init, Holders.init⟩ rfl rfl rfl))).1

/-- C2: every try and timed acquisition variant reports failure by
returning `none` with no side effect on the lock, so a timeout failure is
indistinguishable from a contention failure in the return value and the
holder is never granted. -/
theorem try_variants_fail_none (R T : Type) (l : RwLock R T) (t d : Nat) :
    ((l.try_read).1 = none → (l.try_read).2 = l) ∧
    ((l.try_read_for t).1 = none → (l.try_read_for t).2 = l) ∧
    ((l.try_read_until d).1 = none → (l.try_read_until d).2 = l) ∧
    ((l.try_read_recursive).1 = none → (l.try_read_recursive).2 = l) ∧
    ((l.try_read_recursive_for t).1 = none → (l.try_read_recursive_for t).2 = l) ∧
    ((l.try_read_recursive_until d).1 = none → (l.try_read_recursive_until d).2 = l) ∧
    ((l.try_write).1 = none → (l.try_write).2 = l) ∧
    ((l.try_write_for t).1 = none → (l.try_write_for t).2 = l) ∧
    ((l.try_write_until d).1 = none → (l.try_write_until d).2 = l) ∧
    ((l.try_upgradable_read).1 = none → (l.try_upgradable_read).2 = l) ∧
    ((l.try_upgradable_read_for t).1 = none → (l.try_upgradable_read_for t).2 = l) ∧
    ((l.try_upgradable_read_until d).1 = none → (l.try_upgradable_read_until d).2 = l) := by
  refine ⟨?_, ?_, ?_, ?_, ?_, ?_, ?_, ?_, ?_, ?_, ?_, ?_⟩ <;> intro hnone
  all_goals
    first
    | (rcases h2 : try_lock_shared false l.state with ⟨b, s2⟩
       cases b
       · have hs := try_lock_shared_fail h2
         simp_all [RwLock.try_read, RwLock.try_read_for, RwLock.try_read_until,
           try_lock_shared_for, try_lock_shared_until, h2]
       · simp_all [RwLock.try_read, RwLock.try_read_for, RwLock.try_read_until,
           try_lock_shared_for, try_lock_shared_until, h2])
    | (rcases h2 : try_lock_shared true l.state with ⟨b, s2⟩
       cases b
       · have hs := try_lock_shared_fail h2
         simp_all [RwLock.try_read_recursive, RwLock.try_read_recursive_for,
           RwLock.try_read_recursive_until, try_lock_shared_for,
           try_lock_shared_until, h2]
       · simp_all [RwLock.try_read_recursive, RwLock.try_read_recursive_for,
           RwLock.try_read_recursive_until, try_lock_shared_for,
           try_lock_shared_until, h2])
    | (rcases h2 : try_lock_exclusive l.state with ⟨b, s2⟩
       cases b
       · have hs := try_lock_exclusive_fail h2
         simp_all [RwLock.try_write, RwLock.try_write_for, RwLock.try_write_until,
           try_lock_exclusive_for, try_lock_exclusive_until, h2]
       · simp_all [RwLock.try_write, RwLock.try_write_for, RwLock.try_write_until,
           try_lock_exclusive_for, try_lock_exclusive_until, h2])
    | (rcases h2 : try_lock_upgradable l.state with ⟨b, s2⟩
       cases b
       · have hs := try_lock_upgradable_fail h2
         simp_all [RwLock.try_upgradable_read, RwLock.try_upgradable_read_for,
           RwLock.try_upgradable_read_until, try_lock_upgradable_for,
           try_lock_upgradable_until, h2]
       · simp_all [RwLock.try_upgradable_read, RwLock.try_upgradable_read_for,
           RwLock.try_upgradable_read_until, try_lock_upgradable_for,
           try_lock_upgradable_until, h2])

/-- A write-locked lock on which every try variant fails. -/
def writeLockedExample : RwLock Nat Nat :=
  { rawRef := 0, state := ⟨false, false, true, false, 0⟩, data := 7 }

/-- Witness for C2: at a write-locked lock, every variant fails and the
lock is returned unchanged. -/
theorem try_variants_fail_none_witness :
    (writeLockedExample.try_read).2 = writeLockedExample ∧
    (writeLockedExample.try_read_for 5).2 = writeLockedExample ∧
    (writeLockedExample.try_read_until 5).2 = writeLockedExample ∧
    (writeLockedExample.try_read_recursive).2 = writeLockedExample ∧
    (writeLockedExample.try_read_recursive_for 5).2 = writeLockedExample ∧
    (writeLockedExample.try_read_recursive_until 5).2 = writeLockedExample ∧
    (writeLockedExample.try_write).2 = writeLockedExample ∧
    (writeLockedExample.try_write_for 5).2 = writeLockedExample ∧
    (writeLockedExample.try_write_until 5).2 = writeLockedExample ∧
    (writeLockedExample.try_upgradable_read).2 = writeLockedExample ∧
    (writeLockedExample.try_upgradable_read_for 5).2 = writeLockedExample ∧
    (writeLockedExample.try_upgradable_read_until 5).2 = writeLockedExample := by
  obtain ⟨w1, w2, w3, w4, w5, w6, w7, w8, w9, w10, w11, w12⟩ :=
    try_variants_fail_none Nat Nat writeLockedExample 5 5
  exact ⟨w1 (by decide), w2 (by decide), w3 (by decide), w4 (by decide),
    w5 (by decide), w6 (by decide), w7 (by decide), w8 (by decide),
    w9 (by decide), w10 (by decide), w11 (by decide), w12 (by decide)⟩

/-- C3: `try_upgrade` either succeeds immediately, returning a write
guard over the same raw lock and the same data pointer with the word
moved to the exclusive state, or fails, returning the original upgradable
guard unchanged with the word unmodified. -/
theorem try_upgrade_spec (R T : Type) (g : RwLockUpgradableReadGuard R T)
    (s : RawState) :
    ((g.try_upgrade s).1 = Sum.inr g ∧ (g.try_upgrade s).2 = s) ∨
    (s = ⟨false, false, false, true, 1⟩ ∧
      (g.try_upgrade s).1 = Sum.inl { raw := g.raw, data := g.data } ∧
      (g.try_upgrade s).2 = ⟨false, false, true, false, 0⟩) := by
  by_cases hc : s = (⟨false, false, false, true, 1⟩ : RawState)
  · right
    refine ⟨hc, ?_, ?_⟩ <;>
      simp [RwLockUpgradableReadGuard.try_upgrade,
        try_upgradable_to_exclusive, hc]
  · left
    constructor <;>
      simp [RwLockUpgradableReadGuard.try_upgrade,
        try_upgradable_to_exclusive, hc]

/-- C4: `downgrade` on a write guard performs the single atomic
exclusive-to-shared transition (its raw-call trace is exactly that
transition: no release and no acquire, so the drop release never runs),
returns a read guard over the same raw lock and data, preserves the
parked bits, and leaves the lock in a state in which no writer can take
exclusive access. -/
theorem downgrade_spec (R T : Type) (g : RwLockWriteGuard R T) (s : RawState) :
    (g.downgrade s).1 = { raw := g.raw, data := g.data } ∧
    (g.downgrade s).2.1 = exclusive_to_shared s ∧
    (exclusive_to_shared s).writer = false ∧
    (exclusive_to_shared s).sharedCount = s.sharedCount + 1 ∧
    (exclusive_to_shared s).parked = s.parked ∧
    (exclusive_to_shared s).upgradableParked = s.upgradableParked ∧
    (try_lock_exclusive (exclusive_to_shared s)).1 = false ∧
    (g.downgrade s).2.2 = [RawOp.exclusiveToShared] ∧
    List.countP RawOp.isRelease (g.downgrade s).2.2 = 0 ∧
    List.countP RawOp.isAcquire (g.downgrade s).2.2 = 0 := by
  have hne : exclusive_to_shared s ≠ RawState.init := by
    simp [exclusive_to_shared, RawState.init]
  refine ⟨rfl, rfl, rfl, rfl, rfl, rfl, ?_, rfl, rfl, rfl⟩
  simp [try_lock_exclusive, hne]

/-- C5: the non-recursive shared acquires (`read`, `try_read`) are gated
by PARKED_BIT, while the recursive ones (`read_recursive`,
`try_read_recursive`) ignore it and succeed whenever no writer holds the
lock; in particular, with a waiter parked on the exclusive key a
recursive reader is admitted where a non-recursive one is not. -/
theorem recursive_read_ignores_parked :
    (∀ s : RawState, (try_lock_shared false s).1 = (!s.writer && !s.parked)) ∧
    (∀ s : RawState, (try_lock_shared true s).1 = !s.writer) ∧
    (∀ (R T : Type) (l : RwLock R T),
        (l.try_read).1.isSome = (!l.state.writer && !l.state.parked) ∧
        (l.try_read_recursive).1.isSome = !l.state.writer ∧
        (l.read).isSome = (!l.state.writer && !l.state.parked) ∧
        (l.read_recursive).isSome = !l.state.writer) ∧
    ((try_lock_shared false ⟨true, false, false, false, 1⟩).1 = false ∧
      (try_lock_shared true ⟨true, false, false, false, 1⟩).1 = true) := by
  refine ⟨?_, ?_, ?_, by decide, by decide⟩
  · intro s
    obtain ⟨p, up, w, u, n⟩ := s
    cases w <;> cases p <;>
      simp [try_lock_shared, RawState.sharedGuardOk]
  · intro s
    obtain ⟨p, up, w, u, n⟩ := s
    cases w <;>
      simp [try_lock_shared, RawState.sharedGuardOk]
  · intro R T l
    obtain ⟨r0, ⟨p, up, w, u, n⟩, d0⟩ := l
    cases w <;> cases p <;>
      simp [RwLock.try_read, RwLock.try_read_recursive, RwLock.read,
        RwLock.read_recursive, try_lock_shared, lock_shared,
        RawState.sharedGuardOk]

/-- C6: for read and write guards, `map` consumes the original guard and
produces a guard whose raw-lock back-reference is the original raw lock
and whose data is the projection of the original data; the lock state is
completely unchanged and no raw-lock call (no acquire, no release) is
performed. -/
theorem map_preserves_lock (R T U : Type) (gr : RwLockReadGuard R T)
    (gw : RwLockWriteGuard R T) (f : T → U) (s : RawState) :
    gr.map f s = ({ raw := gr.raw, data := f gr.data }, s, []) ∧
    gw.map f s = ({ raw := gw.raw, data := f gw.data }, s, []) :=
  ⟨rfl, rfl⟩

/-- C7: every exit path of a guard's scope (normal drop, which also runs
on unwind, or `unlock_fair`, which forgets the guard so the drop release
is suppressed) performs exactly one release, with the chosen fairness;
whenever the ghost holder record is empty in a reachable configuration,
the writer bit, upgradable bit and shared count are all zero; and
concrete acquire-release round trips return the word to 0 and leave the
lock usable (no poisoning). -/
theorem release_balance :
    (∀ (R T : Type) (g : RwLockReadGuard R T) (fair : Bool) (s : RawState),
        (g.scopeExit fair s).1 = unlock_shared fair s ∧
        List.countP RawOp.isRelease (g.scopeExit fair s).2 = 1) ∧
    (∀ (R T : Type) (g : RwLockWriteGuard R T) (fair : Bool) (s : RawState),
        (g.scopeExit fair s).1 = unlock_exclusive fair s ∧
        List.countP RawOp.isRelease (g.scopeExit fair s).2 = 1) ∧
    (∀ (R T : Type) (g : RwLockUpgradableReadGuard R T) (fair : Bool)
        (s : RawState),
        (g.scopeExit fair s).1 = unlock_upgradable fair s ∧
        List.countP RawOp.isRelease (g.scopeExit fair s).2 = 1) ∧
    (unlock_shared false (try_lock_shared false RawState.init).2 = RawState.init ∧
      unlock_shared true (try_lock_shared false RawState.init).2 = RawState.init ∧
      unlock_exclusive false (try_lock_exclusive RawState.init).2 = RawState.init ∧
      unlock_exclusive true (try_lock_exclusive RawState.init).2 = RawState.init ∧
      unlock_upgradable false (try_lock_upgradable RawState.init).2 = RawState.init ∧
      unlock_shared false (unlock_shared false
        (try_lock_shared false (try_lock_shared false RawState.init).2).2) =
        RawState.init ∧
      RawState.word (unlock_exclusive false
        (try_lock_exclusive RawState.init).2) = 0 ∧
      (try_lock_shared false (unlock_exclusive false
        (try_lock_exclusive RawState.init).2)).1 = true) ∧
    (∀ c : Config, Reachable c → c.h = Holders.init →
        c.s.writer = false ∧ c.s.upgradable = false ∧ c.s.sharedCount = 0) := by
  refine ⟨?_, ?_, ?_, by decide, ?_⟩
  · intro R T g fair s
    cases fair <;>
      simp [RwLockReadGuard.scopeExit, RwLockReadGuard.drop,
        RwLockReadGuard.unlock_fair, RawOp.isRelease, List.countP,
        List.countP.go]
  · intro R T g fair s
    cases fair <;>
      simp [RwLockWriteGuard.scopeExit, RwLockWriteGuard.drop,
        RwLockWriteGuard.unlock_fair, RawOp.isRelease, List.countP,
        List.countP.go]
  · intro R T g fair s
    cases fair <;>
      simp [RwLockUpgradableReadGuard.scopeExit, RwLockUpgradableReadGuard.drop,
        RwLockUpgradableReadGuard.unlock_fair, RawOp.isRelease, List.countP,
        List.countP.go]
  · intro c hR hEmpty
    obtain ⟨h1, h2, h3, h4, h5⟩ := reachable_inv hR
    have hr0 : c.h.readers = 0 := by rw [hEmpty]; rfl
    have hw0 : c.h.writerH = false := by rw [hEmpty]; rfl
    have hu0 : c.h.upgradableH = false := by rw [hEmpty]; rfl
    refine ⟨h1.trans hw0, h2.trans hu0, ?_⟩
    simp [hr0, hu0] at h3
    exact h3

/-- Witness for C7: the balance conjunct applied at the initial
configuration, whose holder record is empty. -/
theorem release_balance_witness :
    (⟨RawState.init, Holders.init⟩ : Config).s.writer = false ∧
    (⟨RawState.init, Holders.init⟩ : Config).s.upgradable = false ∧
    (⟨RawState.init, Holders.init⟩ : Config).s.sharedCount = 0 :=
  release_balance.2.2.2.2 _ Reachable.init rfl

/-- C8: in non-recursive mode, `try_read` succeeds exactly when no writer
holds the lock and no waiter is parked on the shared/exclusive key; in
particular it succeeds while only shared or upgradable holders are
present and fails while a writer is held. -/
theorem try_read_success_iff :
    (∀ (R T : Type) (l : RwLock R T),
        (l.try_read).1.isSome = true ↔
          (l.state.writer = false ∧ l.state.parked = false)) ∧
    ((RwLock.mk 0 ⟨false, false, false, true, 3⟩ 7 : RwLock Nat Nat)
        |>.try_read).1.isSome = true ∧
    ((RwLock.mk 0 ⟨false, false, true, false, 0⟩ 7 : RwLock Nat Nat)
        |>.try_read).1.isSome = false := by
  refine ⟨?_, by decide, by decide⟩
  intro R T l
  obtain ⟨r0, ⟨p, up, w, u, n⟩, d0⟩ := l
  cases w <;> cases p <;>
    simp [RwLock.try_read, try_lock_shared, RawState.sharedGuardOk]

/-- C10: `RwLock::new(v).into_inner()` returns exactly `v`, and both
`into_inner` and `get_mut` access the payload with no raw-lock call (no
acquire, no release). -/
theorem into_inner_round_trip (R T : Type) (r : R) (v : T) (l : RwLock R T) :
    (RwLock.new r v).into_inner = (v, []) ∧
    l.into_inner = (l.data, []) ∧
    l.get_mut = (l.data, []) :=
  ⟨rfl, rfl, rfl⟩

end ParkingLot
